import Mathlib

/-!
Shallow embedding of the library-management REST service
(`server/api_book_management.py`, `server/api_user_management.py`,
`server/api_loan_management.py`, `server/api_reports_admin.py`).

The Python stores are insertion-ordered dictionaries mapping integer
identifiers to records; we model them as association lists (`Dict`) with
Python-dict semantics: assignment replaces an existing key in place and
otherwise appends at the end, and iteration follows list order.

Dates appear in the Python code as `"%Y-%m-%d"` strings that are produced
by `strftime` and consumed by `strptime`; we model a calendar date as its
day number (a `Nat`), so `datetime.now()` becomes a `today : Nat`
parameter, `+ timedelta(days=14)` becomes `+ 14`, string comparison after
parsing becomes `<` on day numbers, and `(today - due).days` becomes
Nat subtraction.

An unhandled Python exception (the `KeyError` raised by
`book_db[loan["book_id"]]` in `return_book` when the book was deleted) is
modelled as the error value `LibError.keyError`; the state returned next
to it is the state at the moment the exception is raised, since the
in-place mutations performed before that point persist.
-/

namespace LibraryMS

/-- Python dict with integer keys, as an insertion-ordered association list. -/
abbrev Dict (α : Type) := List (Nat × α)

/-- Dictionary lookup, `d.get(key)` / `d[key]` (first matching key). -/
def dlookup {α : Type} : Dict α → Nat → Option α
  | [], _ => none
  | (k, v) :: rest, key => if k = key then some v else dlookup rest key

/-- Dictionary assignment `d[key] = val`: replaces the first occurrence of
`key` in place, otherwise appends at the end (Python dict semantics). -/
def dinsert {α : Type} : Dict α → Nat → α → Dict α
  | [], key, val => [(key, val)]
  | (k, v) :: rest, key, val =>
      if k = key then (key, val) :: rest else (k, v) :: dinsert rest key val

/-- Dictionary deletion `del d[key]`: removes every entry with that key
(at most one is present in any dict built by the operations here). -/
def ddelete {α : Type} : Dict α → Nat → Dict α
  | [], _ => []
  | (k, v) :: rest, key =>
      if k = key then ddelete rest key else (k, v) :: ddelete rest key

/-- `d.keys()`. -/
def dkeys {α : Type} (d : Dict α) : List Nat := d.map Prod.fst

/-- `max(d.keys())` (meaningful only on a non-empty dict; on the empty
dict it returns 0, a case the Python code guards against). -/
def dmaxKey {α : Type} (d : Dict α) : Nat := (dkeys d).foldl max 0

/-- The identifier-assignment idiom shared by `add_book`, `create_user`
and `borrow_book`: `max(d.keys()) + 1 if d else 1`. -/
def nextId {α : Type} (d : Dict α) : Nat :=
  if d.isEmpty then 1 else dmaxKey d + 1

/-- A book record (`book_db` entry / `BookModel`). -/
structure Book where
  title : String
  author : String
  isbn : String
  published_year : Int
  copies_available : Int
deriving DecidableEq, Repr

/-- A loan record (`loan_db` entry). -/
structure Loan where
  book_id : Nat
  user_id : Nat
  loan_date : Nat
  due_date : Nat
  return_date : Option Nat
  status : String
deriving DecidableEq, Repr

/-- The request body of `POST /users` (`UserModel`): `username` and
`password` are optional fields. -/
structure UserModel where
  name : String
  email : String
  role : String
  username : Option String
  password : Option String
deriving DecidableEq, Repr

/-- A stored user record (`user_db` entry).  Because `create_user` and
`update_user` pop the `username`/`password` keys from the dumped dict when
the role is `member`, a stored record may lack those keys entirely; `none`
in the outer `Option` means the key is absent from the record, while
`some v` means the key is present with (optional-string) value `v`. -/
structure StoredUser where
  name : String
  email : String
  role : String
  username : Option (Option String)
  password : Option (Option String)
deriving DecidableEq, Repr

/-- The three entity stores (`book_db`, `user_db`, `loan_db`). -/
structure ServerState where
  book_db : Dict Book
  user_db : Dict StoredUser
  loan_db : Dict Loan
deriving DecidableEq, Repr

/-- The error responses raised by the handlers, plus `keyError` for the
unhandled `KeyError` escape hatch in `return_book`. -/
inductive LibError where
  | notFound
  | unavailable
  | conflict
  | validationFailed
  | keyError
deriving DecidableEq, Repr

/-- The seeded `book_db` of `api_book_management.py`. -/
def initBooks : Dict Book :=
  [ (1, { title := "1984", author := "George Orwell", isbn := "9780451524935",
          published_year := 1949, copies_available := 4 }),
    (2, { title := "To Kill a Mockingbird", author := "Harper Lee",
          isbn := "9780060935467", published_year := 1960, copies_available := 2 }),
    (3, { title := "The Great Gatsby", author := "F. Scott Fitzgerald",
          isbn := "9780743273565", published_year := 1925, copies_available := 5 }),
    (4, { title := "Pride and Prejudice", author := "Jane Austen",
          isbn := "9780141439518", published_year := 1813, copies_available := 3 }),
    (5, { title := "The Catcher in the Rye", author := "J.D. Salinger",
          isbn := "9780316769488", published_year := 1951, copies_available := 6 }) ]

/-- The seeded `user_db` of `api_user_management.py`; user 1 is the admin
record that carries `username`/`password` keys, users 2–4 are member
records without those keys. -/
def initUsers : Dict StoredUser :=
  [ (1, { name := "John Doe", email := "john@example.com", role := "admin",
          username := some (some "johndoe"), password := some (some "admin123") }),
    (2, { name := "Jane Smith", email := "jane@example.com", role := "member",
          username := none, password := none }),
    (3, { name := "Bob Wilson", email := "bob@example.com", role := "member",
          username := none, password := none }),
    (4, { name := "Alice Brown", email := "alice@example.com", role := "member",
          username := none, password := none }) ]

/-- The seeded `loan_db` of `api_loan_management.py`.  All seeded dates
lie in November 2025, so encoding the date `2025-11-dd` as the day number
`1100 + dd` preserves every date comparison and difference the code
performs on them. -/
def initLoans : Dict Loan :=
  [ (1, { book_id := 1, user_id := 1, loan_date := 1101, due_date := 1115,
          return_date := some 1114, status := "returned" }),
    (2, { book_id := 2, user_id := 2, loan_date := 1110, due_date := 1124,
          return_date := none, status := "active" }),
    (3, { book_id := 3, user_id := 1, loan_date := 1115, due_date := 1129,
          return_date := none, status := "active" }) ]

/-- The module-load state of the three stores. -/
def initState : ServerState :=
  { book_db := initBooks, user_db := initUsers, loan_db := initLoans }

/-- `borrow_book` (`POST /loans/borrow`).  Returns the response
(`loan_id` and stored loan record) or the raised error, together with
the resulting store state. -/
def borrow_book (today : Nat) (book_id user_id : Nat) (s : ServerState) :
    Except LibError (Nat × Loan) × ServerState :=
  match dlookup s.book_db book_id with
  | none => (.error .notFound, s)
  | some book =>
      if book.copies_available ≤ 0 then
        (.error .unavailable, s)
      else
        let loan_date := today
        let due_date := today + 14
        let new_id := nextId s.loan_db
        let loan : Loan :=
          { book_id := book_id, user_id := user_id, loan_date := loan_date,
            due_date := due_date, return_date := none, status := "active" }
        let book_db1 := dinsert s.book_db book_id
          { book with copies_available := book.copies_available - 1 }
        (.ok (new_id, loan),
         { s with loan_db := dinsert s.loan_db new_id loan, book_db := book_db1 })

/-- `return_book` (`POST /loans/return`).  The loan mutation
(`return_date`, `status`) happens in place before the book-store
increment; when the referenced book is absent from `book_db` the
increment raises `KeyError`, so the error is reported with the loan
already mutated. -/
def return_book (today : Nat) (loan_id : Nat) (s : ServerState) :
    Except LibError Loan × ServerState :=
  match dlookup s.loan_db loan_id with
  | none => (.error .notFound, s)
  | some loan =>
      if loan.status = "returned" then
        (.error .conflict, s)
      else
        let loan1 : Loan := { loan with return_date := some today, status := "returned" }
        match dlookup s.book_db loan.book_id with
        | none => (.error .keyError, { s with loan_db := dinsert s.loan_db loan_id loan1 })
        | some book =>
            (.ok loan1,
             { s with loan_db := dinsert s.loan_db loan_id loan1,
                      book_db := (dinsert s.book_db loan.book_id
                        { book with copies_available := book.copies_available + 1 }) })

/-- `add_book` (`POST /books`): assigns `max(book_db.keys()) + 1` (or 1
on an empty store), stores the record, returns it.  We also return the
assigned identifier, which the handler uses as the storage key. -/
def add_book (book : Book) (s : ServerState) : (Nat × Book) × ServerState :=
  let new_id := nextId s.book_db
  ((new_id, book), { s with book_db := dinsert s.book_db new_id book })

/-- `get_book` (`GET /books/{book_id}`). -/
def get_book (book_id : Nat) (s : ServerState) : Except LibError Book :=
  match dlookup s.book_db book_id with
  | none => .error .notFound
  | some book => .ok book

/-- `update_book` (`PUT /books/{book_id}`): full record replace, NotFound
if the identifier is absent. -/
def update_book (book_id : Nat) (book : Book) (s : ServerState) :
    Except LibError Book × ServerState :=
  match dlookup s.book_db book_id with
  | none => (.error .notFound, s)
  | some _ => (.ok book, { s with book_db := dinsert s.book_db book_id book })

/-- `delete_book` (`DELETE /books/{book_id}`). -/
def delete_book (book_id : Nat) (s : ServerState) :
    Except LibError Nat × ServerState :=
  match dlookup s.book_db book_id with
  | none => (.error .notFound, s)
  | some _ => (.ok book_id, { s with book_db := ddelete s.book_db book_id })

/-- Python truthiness test `not x` on an `Optional[str]` field: true for
a missing value (`None`) and for the empty string. -/
def pyFalsy : Option String → Bool
  | none => true
  | some str => str = ""

/-- The record stored by `create_user`/`update_user`: `model_dump()` of
the request, with the `username`/`password` keys popped when the role is
`member` (for any other role both keys remain, holding the request's
optional values). -/
def storedUserOf (user : UserModel) : StoredUser :=
  if user.role = "member" then
    { name := user.name, email := user.email, role := user.role,
      username := none, password := none }
  else
    { name := user.name, email := user.email, role := user.role,
      username := some user.username, password := some user.password }

/-- `create_user` (`POST /users`): rejects an admin whose username or
password is missing or empty, assigns the next identifier, stores the
(possibly stripped) record and returns it. -/
def create_user (user : UserModel) (s : ServerState) :
    Except LibError StoredUser × ServerState :=
  if user.role = "admin" ∧ (pyFalsy user.username ∨ pyFalsy user.password) then
    (.error .validationFailed, s)
  else
    let new_id := nextId s.user_db
    let user_data := storedUserOf user
    (.ok user_data, { s with user_db := dinsert s.user_db new_id user_data })

/-- `update_user` (`PUT /users/{user_id}`): NotFound if the identifier is
absent, then the same admin-credential validation and member stripping
as `create_user`, then full record replace. -/
def update_user (user_id : Nat) (user : UserModel) (s : ServerState) :
    Except LibError StoredUser × ServerState :=
  match dlookup s.user_db user_id with
  | none => (.error .notFound, s)
  | some _ =>
      if user.role = "admin" ∧ (pyFalsy user.username ∨ pyFalsy user.password) then
        (.error .validationFailed, s)
      else
        let user_data := storedUserOf user
        (.ok user_data, { s with user_db := dinsert s.user_db user_id user_data })

/-- `delete_user` (`DELETE /users/{user_id}`). -/
def delete_user (user_id : Nat) (s : ServerState) :
    Except LibError Nat × ServerState :=
  match dlookup s.user_db user_id with
  | none => (.error .notFound, s)
  | some _ => (.ok user_id, { s with user_db := ddelete s.user_db user_id })

/-- One element of the `overdue_books` list returned by
`get_overdue_books`: the loan (with its identifier) enriched with the
resolved book title, resolved user name and the day difference. -/
structure OverdueEntry where
  loan_id : Nat
  loan : Loan
  book_title : String
  user_name : String
  days_overdue : Nat
deriving DecidableEq, Repr

/-- The entry `get_overdue_books` builds for an emitted loan. -/
def overdueEntryOf (s : ServerState) (today : Nat) (loan_id : Nat) (loan : Loan) :
    OverdueEntry :=
  { loan_id := loan_id, loan := loan,
    book_title := ((dlookup s.book_db loan.book_id).map Book.title).getD "Unknown",
    user_name := ((dlookup s.user_db loan.user_id).map StoredUser.name).getD "Unknown",
    days_overdue := today - loan.due_date }

/-- `get_overdue_books` (`GET /admin/overdue`): scans `loan_db` in store
order, emitting every active loan whose due date is strictly before
`today`. -/
def get_overdue_books (today : Nat) (s : ServerState) : List OverdueEntry :=
  s.loan_db.filterMap fun p =>
    if p.2.status = "active" ∧ p.2.due_date < today then
      some (overdueEntryOf s today p.1 p.2)
    else none

/-- The `borrow_count` frequency dict of `get_most_borrowed_book`:
`borrow_count[book_id] = borrow_count.get(book_id, 0) + 1` over the loans
in store order, so keys appear in order of first occurrence. -/
def borrow_counts (loans : Dict Loan) : Dict Nat :=
  loans.foldl
    (fun acc p => dinsert acc p.2.book_id ((dlookup acc p.2.book_id).getD 0 + 1))
    []

/-- Python `max(iterable, key=f)` over key/count pairs: keeps the current
maximum and replaces it only on a strictly greater count, so the first
maximal element in iteration order wins. -/
def pyMaxByVal : Nat × Nat → List (Nat × Nat) → Nat × Nat
  | best, [] => best
  | best, p :: rest => pyMaxByVal (if p.2 > best.2 then p else best) rest

/-- The response of `get_most_borrowed_book`: either the explicit
no-history message or the winning book with its resolved title/author and
borrow count (the `all_books_stats` ranking is not modelled). -/
inductive MostBorrowedResult where
  | noHistory
  | result (book_id : Nat) (title : String) (author : String) (times_borrowed : Nat)
deriving DecidableEq, Repr

/-- `get_most_borrowed_book` (`GET /admin/most-borrowed`): frequency-count
the loans by `book_id`, return the no-history message on an empty count
dict, otherwise `max(borrow_count.keys(), key=...)` and the book's
resolved fields. -/
def get_most_borrowed_book (s : ServerState) : MostBorrowedResult :=
  match borrow_counts s.loan_db with
  | [] => .noHistory
  | c :: rest =>
      let most_borrowed_id := (pyMaxByVal c rest).1
      let most_borrowed_book := dlookup s.book_db most_borrowed_id
      .result most_borrowed_id
        ((most_borrowed_book.map Book.title).getD "Unknown")
        ((most_borrowed_book.map Book.author).getD "Unknown")
        ((dlookup (borrow_counts s.loan_db) most_borrowed_id).getD 0)

/-- One invocation of a store-mutating handler (the read-only handlers
leave the state unchanged and are irrelevant to reachability). -/
inductive Op where
  | borrow (today book_id user_id : Nat)
  | ret (today loan_id : Nat)
  | addBook (book : Book)
  | updateBook (book_id : Nat) (book : Book)
  | deleteBook (book_id : Nat)
  | createUser (user : UserModel)
  | updateUser (user_id : Nat) (user : UserModel)
  | deleteUser (user_id : Nat)

/-- The store state after one handler invocation (whether it succeeded
or raised). -/
def applyOp : Op → ServerState → ServerState
  | .borrow today book_id user_id, s => (borrow_book today book_id user_id s).2
  | .ret today loan_id, s => (return_book today loan_id s).2
  | .addBook book, s => (add_book book s).2
  | .updateBook book_id book, s => (update_book book_id book s).2
  | .deleteBook book_id, s => (delete_book book_id s).2
  | .createUser user, s => (create_user user s).2
  | .updateUser user_id user, s => (update_user user_id user s).2
  | .deleteUser user_id, s => (delete_user user_id s).2

/-- The state reached from the seeded stores by a sequence of handler
invocations. -/
def runOps (ops : List Op) : ServerState :=
  ops.foldl (fun s op => applyOp op s) initState

/-- The loan-record invariant of claim C10: status is `active` or
`returned`, and `returned` exactly when `return_date` is set. -/
def LoanOK (loan : Loan) : Prop :=
  (loan.status = "active" ∨ loan.status = "returned") ∧
  (loan.status = "returned" ↔ loan.return_date ≠ none)

instance (loan : Loan) : Decidable (LoanOK loan) := by
  unfold LoanOK; infer_instance

/-- Every loan record in the store satisfies `LoanOK`. -/
def LoansWF (s : ServerState) : Prop := ∀ p ∈ s.loan_db, LoanOK p.2

/-! ## Association-list (Python dict) lemmas -/

theorem dlookup_dinsert_self {α : Type} (d : Dict α) (k : Nat) (v : α) :
    dlookup (dinsert d k v) k = some v := by
  induction d with
  | nil => simp [dinsert, dlookup]
  | cons p rest ih =>
      obtain ⟨k1, v1⟩ := p
      by_cases h : k1 = k <;> simp [dinsert, dlookup, h, ih]

theorem dlookup_dinsert_ne {α : Type} (d : Dict α) (k k1 : Nat) (v : α)
    (h : k1 ≠ k) : dlookup (dinsert d k v) k1 = dlookup d k1 := by
  have hk : ¬ k = k1 := fun h2 => h h2.symm
  induction d with
  | nil => simp [dinsert, dlookup, hk]
  | cons p rest ih =>
      obtain ⟨k2, v2⟩ := p
      by_cases h2 : k2 = k
      · subst h2
        simp [dinsert, dlookup, hk]
      · simp [dinsert, dlookup, h2, ih]

theorem mem_dinsert {α : Type} {d : Dict α} {k : Nat} {v : α} {p : Nat × α}
    (hp : p ∈ dinsert d k v) : p ∈ d ∨ p = (k, v) := by
  induction d with
  | nil => simpa [dinsert] using hp
  | cons q rest ih =>
      obtain ⟨k1, v1⟩ := q
      by_cases h : k1 = k
      · simp only [dinsert, if_pos h] at hp
        rcases List.mem_cons.1 hp with h1 | h1
        · exact Or.inr h1
        · exact Or.inl (List.mem_cons_of_mem _ h1)
      · simp only [dinsert, if_neg h] at hp
        rcases List.mem_cons.1 hp with h1 | h1
        · exact Or.inl (h1 ▸ List.mem_cons_self _ _)
        · rcases ih h1 with h2 | h2
          · exact Or.inl (List.mem_cons_of_mem _ h2)
          · exact Or.inr h2

theorem dinsert_of_not_mem_keys {α : Type} {d : Dict α} {k : Nat}
    (h : k ∉ dkeys d) (v : α) : dinsert d k v = d ++ [(k, v)] := by
  induction d with
  | nil => rfl
  | cons p rest ih =>
      obtain ⟨k1, v1⟩ := p
      simp only [dkeys, List.map_cons, List.mem_cons] at h
      push_neg at h
      have hne : ¬ k1 = k := fun h2 => h.1 h2.symm
      simp only [dinsert, if_neg hne, List.cons_append, List.cons.injEq, true_and]
      exact ih h.2

theorem foldl_max_init_le (l : List Nat) (a : Nat) : a ≤ l.foldl max a := by
  induction l generalizing a with
  | nil => exact Nat.le_refl a
  | cons x xs ih => exact Nat.le_trans (Nat.le_max_left a x) (ih (max a x))

theorem mem_le_foldl_max (l : List Nat) (a k : Nat) (h : k ∈ l) :
    k ≤ l.foldl max a := by
  induction l generalizing a with
  | nil => cases h
  | cons x xs ih =>
      rcases List.mem_cons.1 h with rfl | h1
      · exact Nat.le_trans (Nat.le_max_right a k) (foldl_max_init_le xs (max a k))
      · exact ih (max a x) h1

theorem mem_keys_le_dmaxKey {α : Type} {d : Dict α} {k : Nat}
    (h : k ∈ dkeys d) : k ≤ dmaxKey d :=
  mem_le_foldl_max (dkeys d) 0 k h

theorem nextId_not_mem_keys {α : Type} (d : Dict α) : nextId d ∉ dkeys d := by
  cases d with
  | nil => simp [dkeys]
  | cons p rest =>
      intro h
      have h1 := mem_keys_le_dmaxKey h
      have h2 : nextId (p :: rest) = dmaxKey (p :: rest) + 1 := by
        simp [nextId]
      omega

theorem dinsert_nextId {α : Type} (d : Dict α) (v : α) :
    dinsert d (nextId d) v = d ++ [(nextId d, v)] :=
  dinsert_of_not_mem_keys (nextId_not_mem_keys d) v

theorem dkeys_nodup_dinsert {α : Type} {d : Dict α} (k : Nat) (v : α)
    (h : (dkeys d).Nodup) : (dkeys (dinsert d k v)).Nodup := by
  induction d with
  | nil => simp [dinsert, dkeys]
  | cons p rest ih =>
      obtain ⟨k1, v1⟩ := p
      simp only [dkeys, List.map_cons, List.nodup_cons] at h
      by_cases h1 : k1 = k
      · subst h1
        simpa [dinsert, dkeys, List.nodup_cons] using h
      · simp only [dinsert, if_neg h1, dkeys, List.map_cons, List.nodup_cons]
        refine ⟨fun hmem => ?_, ih h.2⟩
        rcases (List.mem_map.1 hmem) with ⟨q, hq, hqk⟩
        rcases mem_dinsert hq with h2 | h2
        · exact h.1 (hqk ▸ List.mem_map_of_mem Prod.fst h2)
        · exact h1 (by rw [h2] at hqk; exact hqk.symm ▸ rfl)

theorem dlookup_of_mem_nodup {α : Type} {d : Dict α} {k : Nat} {v : α}
    (hnd : (dkeys d).Nodup) (h : (k, v) ∈ d) : dlookup d k = some v := by
  induction d with
  | nil => cases h
  | cons p rest ih =>
      obtain ⟨k1, v1⟩ := p
      simp only [dkeys, List.map_cons, List.nodup_cons] at hnd
      rcases List.mem_cons.1 h with h1 | h1
      · rw [Prod.mk.injEq] at h1
        simp [dlookup, h1.1, h1.2]
      · have hne : k1 ≠ k := by
          intro h2
          exact hnd.1 (h2 ▸ List.mem_map_of_mem Prod.fst h1)
        simp [dlookup, hne, ih hnd.2 h1]

/-! ## Unfolding lemmas for the loan handlers -/

theorem borrow_book_ok {today book_id user_id : Nat} {s : ServerState} {book : Book}
    (hb : dlookup s.book_db book_id = some book)
    (hc : 0 < book.copies_available) :
    borrow_book today book_id user_id s =
      (.ok (nextId s.loan_db,
         { book_id := book_id, user_id := user_id, loan_date := today,
           due_date := today + 14, return_date := none, status := "active" }),
       { s with
           book_db := dinsert s.book_db book_id
             { book with copies_available := book.copies_available - 1 },
           loan_db := dinsert s.loan_db (nextId s.loan_db)
             { book_id := book_id, user_id := user_id, loan_date := today,
               due_date := today + 14, return_date := none, status := "active" } }) := by
  unfold borrow_book
  rw [hb]
  dsimp only
  rw [if_neg (not_le.mpr hc)]

/-- Claim C1: a borrow request for a book that is present with
`copies_available > 0` succeeds, creating exactly one new loan — status
`active`, `return_date` null, `loan_date = today`,
`due_date = today + 14` — stored under the identifier
`max(existing loan ids) + 1` (1 when the loan store was empty), appended
after all pre-existing loans, and the book's `copies_available` drops by
exactly one. -/
theorem borrow_valid_creates_active_loan (today book_id user_id : Nat)
    (s : ServerState) (book : Book)
    (hb : dlookup s.book_db book_id = some book)
    (hc : 0 < book.copies_available) :
    (borrow_book today book_id user_id s).1 =
      .ok (nextId s.loan_db,
        { book_id := book_id, user_id := user_id, loan_date := today,
          due_date := today + 14, return_date := none, status := "active" }) ∧
    nextId s.loan_db = (if s.loan_db = [] then 1 else dmaxKey s.loan_db + 1) ∧
    (borrow_book today book_id user_id s).2.loan_db =
      s.loan_db ++ [(nextId s.loan_db,
        { book_id := book_id, user_id := user_id, loan_date := today,
          due_date := today + 14, return_date := none, status := "active" })] ∧
    dlookup (borrow_book today book_id user_id s).2.book_db book_id =
      some { book with copies_available := book.copies_available - 1 } := by
  rw [borrow_book_ok hb hc]
  refine ⟨rfl, ?_, ?_, ?_⟩
  · cases hd : s.loan_db <;> simp [nextId, hd]
  · exact dinsert_nextId s.loan_db _
  · exact dlookup_dinsert_self ..

theorem borrow_valid_creates_active_loan_witness :
    (borrow_book 1200 1 2 initState).1 =
      .ok (4, { book_id := 1, user_id := 2, loan_date := 1200, due_date := 1214,
                return_date := none, status := "active" }) ∧
    (borrow_book 1200 1 2 initState).2.loan_db =
      initState.loan_db ++
        [(4, { book_id := 1, user_id := 2, loan_date := 1200, due_date := 1214,
               return_date := none, status := "active" })] :=
  have h := borrow_valid_creates_active_loan 1200 1 2 initState
    { title := "1984", author := "George Orwell", isbn := "9780451524935",
      published_year := 1949, copies_available := 4 } rfl (by decide)
  ⟨h.1, h.2.2.1⟩

/-- Claim C9: a successful borrow leaves the user store untouched, leaves
every other book record untouched, changes only the `copies_available`
field of the borrowed book (every other field is carried over), and
appends exactly one new loan record after the unchanged pre-existing
ones. -/
theorem borrow_frame (today book_id user_id : Nat) (s : ServerState) (book : Book)
    (hb : dlookup s.book_db book_id = some book)
    (hc : 0 < book.copies_available) :
    (borrow_book today book_id user_id s).2.user_db = s.user_db ∧
    (∀ k, k ≠ book_id →
       dlookup (borrow_book today book_id user_id s).2.book_db k =
         dlookup s.book_db k) ∧
    dlookup (borrow_book today book_id user_id s).2.book_db book_id =
      some { title := book.title, author := book.author, isbn := book.isbn,
             published_year := book.published_year,
             copies_available := book.copies_available - 1 } ∧
    (borrow_book today book_id user_id s).2.loan_db =
      s.loan_db ++ [(nextId s.loan_db,
        { book_id := book_id, user_id := user_id, loan_date := today,
          due_date := today + 14, return_date := none, status := "active" })] := by
  rw [borrow_book_ok hb hc]
  exact ⟨rfl, fun k hk => dlookup_dinsert_ne _ _ _ _ hk,
         dlookup_dinsert_self .., dinsert_nextId ..⟩

theorem borrow_frame_witness :
    (borrow_book 1200 1 2 initState).2.user_db = initState.user_db ∧
    dlookup (borrow_book 1200 1 2 initState).2.book_db 3 =
      dlookup initState.book_db 3 :=
  have h := borrow_frame 1200 1 2 initState
    { title := "1984", author := "George Orwell", isbn := "9780451524935",
      published_year := 1949, copies_available := 4 } rfl (by decide)
  ⟨h.1, h.2.1 3 (by decide)⟩

/-- Claim C4: borrowing a book that exists but has `copies_available ≤ 0`
is rejected with the availability error and the whole state is returned
unchanged — no loan record is created and no counter moves. -/
theorem borrow_unavailable_rejected (today book_id user_id : Nat)
    (s : ServerState) (book : Book)
    (hb : dlookup s.book_db book_id = some book)
    (hc : book.copies_available ≤ 0) :
    borrow_book today book_id user_id s = (.error .unavailable, s) := by
  unfold borrow_book
  rw [hb]
  dsimp only
  rw [if_pos hc]

theorem borrow_unavailable_rejected_witness :
    borrow_book 5 1 9
      { book_db := [(1, { title := "Z", author := "A", isbn := "I",
                          published_year := 2000, copies_available := 0 })],
        user_db := [], loan_db := [] } =
      (.error .unavailable,
       { book_db := [(1, { title := "Z", author := "A", isbn := "I",
                           published_year := 2000, copies_available := 0 })],
         user_db := [], loan_db := [] }) :=
  borrow_unavailable_rejected 5 1 9 _
    { title := "Z", author := "A", isbn := "I",
      published_year := 2000, copies_available := 0 } rfl (by decide)

/-- Claim C3: returning a loan whose status is already `returned` fails
with the conflict error and the entire state — the loan's fields, the
book counters, all three stores — is exactly the input state. -/
theorem return_already_returned_conflict (today loan_id : Nat)
    (s : ServerState) (loan : Loan)
    (hl : dlookup s.loan_db loan_id = some loan)
    (hs : loan.status = "returned") :
    return_book today loan_id s = (.error .conflict, s) := by
  unfold return_book
  rw [hl]
  dsimp only
  rw [if_pos hs]

theorem return_already_returned_conflict_witness :
    return_book 1200 1 initState = (.error .conflict, initState) :=
  return_already_returned_conflict 1200 1 initState
    { book_id := 1, user_id := 1, loan_date := 1101, due_date := 1115,
      return_date := some 1114, status := "returned" } rfl rfl

/-- Counterexample to claim C2: after deleting book 2, returning the
active loan 2 (which references it) does NOT inflate any counter — the
unguarded `book_db[loan["book_id"]]` access raises `KeyError`, so the
call fails, and it fails between the two writes: the loan has already
been flipped to `returned` with `return_date` set, while the book store
is exactly as before the call. -/
theorem return_deleted_book_counterexample :
    (return_book 1200 2 (delete_book 2 initState).2).1 = .error .keyError ∧
    (return_book 1200 2 (delete_book 2 initState).2).2.book_db =
      (delete_book 2 initState).2.book_db ∧
    dlookup (return_book 1200 2 (delete_book 2 initState).2).2.loan_db 2 =
      some { book_id := 2, user_id := 2, loan_date := 1110, due_date := 1124,
             return_date := some 1200, status := "returned" } := by
  refine ⟨rfl, rfl, rfl⟩

/-- Claim C2 as amended: returning an existing loan with status `active`
sets `return_date = today` and `status = returned`; when the referenced
book is still present its `copies_available` rises by one; when the book
is absent the call instead fails with an unhandled `KeyError` raised by
the book-store write, after the loan-store write has already happened,
so the loan is left mutated and the book store untouched. -/
theorem return_active_updates_loan_and_book (today loan_id : Nat)
    (s : ServerState) (loan : Loan)
    (hl : dlookup s.loan_db loan_id = some loan)
    (hs : loan.status = "active") :
    (∀ book, dlookup s.book_db loan.book_id = some book →
       return_book today loan_id s =
         (.ok { loan with return_date := some today, status := "returned" },
          { s with
              loan_db := (dinsert s.loan_db loan_id
                { loan with return_date := some today, status := "returned" }),
              book_db := (dinsert s.book_db loan.book_id
                { book with copies_available := book.copies_available + 1 }) })) ∧
    (dlookup s.book_db loan.book_id = none →
       return_book today loan_id s =
         (.error .keyError,
          { s with loan_db := (dinsert s.loan_db loan_id
              { loan with return_date := some today, status := "returned" }) })) := by
  have hne : ¬ loan.status = "returned" := by rw [hs]; decide
  constructor
  · intro book hbook
    unfold return_book
    rw [hl]
    dsimp only
    rw [if_neg hne, hbook]
  · intro hbook
    unfold return_book
    rw [hl]
    dsimp only
    rw [if_neg hne, hbook]

theorem return_active_updates_loan_and_book_witness :
    return_book 1200 2 initState =
      (.ok { book_id := 2, user_id := 2, loan_date := 1110, due_date := 1124,
             return_date := some 1200, status := "returned" },
       { initState with
           loan_db := (dinsert initState.loan_db 2
             { book_id := 2, user_id := 2, loan_date := 1110, due_date := 1124,
               return_date := some 1200, status := "returned" }),
           book_db := (dinsert initState.book_db 2
             { title := "To Kill a Mockingbird", author := "Harper Lee",
               isbn := "9780060935467", published_year := 1960,
               copies_available := 3 }) }) :=
  (return_active_updates_loan_and_book 1200 2 initState
      { book_id := 2, user_id := 2, loan_date := 1110, due_date := 1124,
        return_date := none, status := "active" } rfl rfl).1
    { title := "To Kill a Mockingbird", author := "Harper Lee",
      isbn := "9780060935467", published_year := 1960, copies_available := 2 } rfl

/-- Claim C5: `get_overdue_books` emits an entry if and only if it comes
from a stored loan with status `active` and `due_date` strictly before
today; the entry carries the loan, `days_overdue` equal to the day
difference, the resolved book title and the resolved user name, both
defaulting to "Unknown" when the referenced record is absent. -/
theorem overdue_mem_iff (today : Nat) (s : ServerState) (e : OverdueEntry) :
    e ∈ get_overdue_books today s ↔
      ∃ p ∈ s.loan_db, p.2.status = "active" ∧ p.2.due_date < today ∧
        e = { loan_id := p.1, loan := p.2,
              book_title := ((dlookup s.book_db p.2.book_id).map Book.title).getD "Unknown",
              user_name := ((dlookup s.user_db p.2.user_id).map StoredUser.name).getD "Unknown",
              days_overdue := today - p.2.due_date } := by
  unfold get_overdue_books
  rw [List.mem_filterMap]
  constructor
  · rintro ⟨p, hp, he⟩
    by_cases hcond : p.2.status = "active" ∧ p.2.due_date < today
    · rw [if_pos hcond] at he
      injection he with he2
      refine ⟨p, hp, hcond.1, hcond.2, ?_⟩
      rw [← he2]
      rfl
    · rw [if_neg hcond] at he
      cases he
  · rintro ⟨p, hp, h1, h2, rfl⟩
    refine ⟨p, hp, ?_⟩
    rw [if_pos ⟨h1, h2⟩]
    rfl

/-- Claim C6: creating or updating a user with role `admin` fails with
the validation error whenever the username or the password is missing or
empty (Python falsiness), leaving the state unchanged; creating or
updating a user with role `member` succeeds and the persisted record
carries no `username` and no `password` key, even when both were supplied
in the request. -/
theorem user_credential_validation (user : UserModel) (s : ServerState) :
    (user.role = "admin" → (pyFalsy user.username ∨ pyFalsy user.password) →
       create_user user s = (.error .validationFailed, s) ∧
       (∀ user_id u0, dlookup s.user_db user_id = some u0 →
          update_user user_id user s = (.error .validationFailed, s))) ∧
    (user.role = "member" →
       create_user user s =
         (.ok { name := user.name, email := user.email, role := user.role,
                username := none, password := none },
          { s with user_db := (dinsert s.user_db (nextId s.user_db)
              { name := user.name, email := user.email, role := user.role,
                username := none, password := none }) }) ∧
       (∀ user_id u0, dlookup s.user_db user_id = some u0 →
          update_user user_id user s =
            (.ok { name := user.name, email := user.email, role := user.role,
                   username := none, password := none },
             { s with user_db := (dinsert s.user_db user_id
                 { name := user.name, email := user.email, role := user.role,
                   username := none, password := none }) }))) := by
  constructor
  · intro hrole hfal
    have hcond : user.role = "admin" ∧ (pyFalsy user.username ∨ pyFalsy user.password) :=
      ⟨hrole, hfal⟩
    constructor
    · unfold create_user
      rw [if_pos hcond]
    · intro user_id u0 hu
      unfold update_user
      rw [hu]
      dsimp only
      rw [if_pos hcond]
  · intro hrole
    have hcond : ¬ (user.role = "admin" ∧ (pyFalsy user.username ∨ pyFalsy user.password)) := by
      rw [hrole]
      rintro ⟨h2, -⟩
      exact absurd h2 (by decide)
    constructor
    · unfold create_user
      rw [if_neg hcond]
      unfold storedUserOf
      rw [if_pos hrole]
    · intro user_id u0 hu
      unfold update_user
      rw [hu]
      dsimp only
      rw [if_neg hcond]
      unfold storedUserOf
      rw [if_pos hrole]

theorem user_credential_validation_witness :
    create_user { name := "A", email := "a@b.c", role := "admin",
                  username := some "adminuser", password := none } initState =
      (.error .validationFailed, initState) ∧
    (create_user { name := "M", email := "m@b.c", role := "member",
                   username := some "memberuser", password := some "secret" }
        initState).1 =
      .ok { name := "M", email := "m@b.c", role := "member",
            username := none, password := none } :=
  ⟨((user_credential_validation
      { name := "A", email := "a@b.c", role := "admin",
        username := some "adminuser", password := none } initState).1
      rfl (Or.inr (by decide))).1,
   by
     rw [((user_credential_validation
        { name := "M", email := "m@b.c", role := "member",
          username := some "memberuser", password := some "secret" }
        initState).2 rfl).1]⟩

theorem update_book_of_mem {book_id : Nat} {b0 : Book} {s : ServerState}
    (h : dlookup s.book_db book_id = some b0) (book : Book) :
    update_book book_id book s =
      (.ok book, { s with book_db := dinsert s.book_db book_id book }) := by
  unfold update_book
  rw [h]

theorem update_book_of_absent {book_id : Nat} {s : ServerState}
    (h : dlookup s.book_db book_id = none) (book : Book) :
    update_book book_id book s = (.error .notFound, s) := by
  unfold update_book
  rw [h]

/-- Claim C7: reading a book by identifier reflects the most recent write
to that identifier — reading right after `add_book` yields the created
record, and whenever `update_book i b` succeeds, reading `i` in the
resulting state yields `b`. -/
theorem book_read_reflects_last_write (s : ServerState) (b : Book) :
    get_book (add_book b s).1.1 (add_book b s).2 = .ok b ∧
    (∀ (i : Nat) (b2 : Book) (s0 : ServerState),
       (update_book i b2 s0).1 = Except.ok b2 →
       get_book i (update_book i b2 s0).2 = .ok b2) := by
  constructor
  · show get_book (nextId s.book_db)
      { s with book_db := dinsert s.book_db (nextId s.book_db) b } = .ok b
    unfold get_book
    rw [dlookup_dinsert_self]
  · intro i b2 s0 hupd
    cases hlk : dlookup s0.book_db i with
    | none =>
        rw [update_book_of_absent hlk] at hupd
        cases hupd
    | some b3 =>
        rw [update_book_of_mem hlk]
        unfold get_book
        rw [dlookup_dinsert_self]

theorem book_read_reflects_last_write_witness :
    get_book 6 (add_book { title := "T", author := "A", isbn := "I",
                           published_year := 2001, copies_available := 7 }
                 initState).2 =
      .ok { title := "T", author := "A", isbn := "I",
            published_year := 2001, copies_available := 7 } ∧
    get_book 6 (update_book 6
        { title := "T2", author := "A2", isbn := "I2",
          published_year := 2002, copies_available := 8 }
        (add_book { title := "T", author := "A", isbn := "I",
                    published_year := 2001, copies_available := 7 }
          initState).2).2 =
      .ok { title := "T2", author := "A2", isbn := "I2",
            published_year := 2002, copies_available := 8 } :=
  have h := book_read_reflects_last_write initState
    { title := "T", author := "A", isbn := "I",
      published_year := 2001, copies_available := 7 }
  ⟨h.1,
   h.2 6 { title := "T2", author := "A2", isbn := "I2",
           published_year := 2002, copies_available := 8 } _ rfl⟩

/-! ## Lemmas about the borrow-frequency ranking -/

theorem pyMaxByVal_mem (best : Nat × Nat) (l : List (Nat × Nat)) :
    pyMaxByVal best l ∈ best :: l := by
  induction l generalizing best with
  | nil => exact List.mem_singleton.mpr rfl
  | cons q rest ih =>
      unfold pyMaxByVal
      by_cases h : q.2 > best.2
      · rw [if_pos h]
        rcases List.mem_cons.1 (ih q) with h1 | h1
        · rw [h1]
          exact List.mem_cons_of_mem _ (List.mem_cons_self _ _)
        · exact List.mem_cons_of_mem _ (List.mem_cons_of_mem _ h1)
      · rw [if_neg h]
        rcases List.mem_cons.1 (ih best) with h1 | h1
        · rw [h1]
          exact List.mem_cons_self _ _
        · exact List.mem_cons_of_mem _ (List.mem_cons_of_mem _ h1)

theorem pyMaxByVal_ge (best : Nat × Nat) (l : List (Nat × Nat)) :
    ∀ p ∈ best :: l, p.2 ≤ (pyMaxByVal best l).2 := by
  induction l generalizing best with
  | nil =>
      intro p hp
      rw [List.mem_singleton.1 hp]
      exact Nat.le_refl _
  | cons q rest ih =>
      intro p hp
      unfold pyMaxByVal
      by_cases h : q.2 > best.2
      · rw [if_pos h]
        rcases List.mem_cons.1 hp with h1 | h1
        · rw [h1]
          exact Nat.le_trans (Nat.le_of_lt h) (ih q q (List.mem_cons_self _ _))
        · exact ih q p h1
      · rw [if_neg h]
        rcases List.mem_cons.1 hp with h1 | h1
        · rw [h1]
          exact ih best best (List.mem_cons_self _ _)
        · rcases List.mem_cons.1 h1 with h2 | h2
          · rw [h2]
            exact Nat.le_trans (Nat.le_of_not_lt h) (ih best best (List.mem_cons_self _ _))
          · exact ih best p (List.mem_cons_of_mem _ h2)

theorem dinsert_ne_nil {α : Type} (d : Dict α) (k : Nat) (v : α) :
    dinsert d k v ≠ [] := by
  cases d with
  | nil => simp [dinsert]
  | cons p rest =>
      obtain ⟨k1, v1⟩ := p
      by_cases h : k1 = k <;> simp [dinsert, h]

theorem borrow_counts_step_ne_nil (l : List (Nat × Loan)) (acc : Dict Nat)
    (h : acc ≠ []) :
    l.foldl (fun acc p => dinsert acc p.2.book_id
      ((dlookup acc p.2.book_id).getD 0 + 1)) acc ≠ [] := by
  induction l generalizing acc with
  | nil => exact h
  | cons p rest ih => exact ih _ (dinsert_ne_nil _ _ _)

theorem borrow_counts_ne_nil {l : Dict Loan} (h : l ≠ []) :
    borrow_counts l ≠ [] := by
  cases l with
  | nil => exact absurd rfl h
  | cons p rest =>
      unfold borrow_counts
      rw [List.foldl_cons]
      exact borrow_counts_step_ne_nil rest _ (dinsert_ne_nil _ _ _)

theorem borrow_counts_keys_nodup (l : Dict Loan) :
    (dkeys (borrow_counts l)).Nodup := by
  suffices h : ∀ acc : Dict Nat, (dkeys acc).Nodup →
      (dkeys (l.foldl (fun acc p => dinsert acc p.2.book_id
        ((dlookup acc p.2.book_id).getD 0 + 1)) acc)).Nodup by
    exact h [] (by simp [dkeys])
  induction l with
  | nil => intro acc h; exact h
  | cons p rest ih =>
      intro acc h
      rw [List.foldl_cons]
      exact ih _ (dkeys_nodup_dinsert _ _ h)

/-- Claim C8: `get_most_borrowed_book` on an empty loan store returns the
explicit no-history response, never an arithmetic or max-of-empty error;
on a non-empty loan store it reports a book identifier whose borrow count
is at least every other book's borrow count, together with its resolved
title/author and its exact count. -/
theorem most_borrowed_empty_or_max (s : ServerState) :
    (s.loan_db = [] → get_most_borrowed_book s = .noHistory) ∧
    (s.loan_db ≠ [] →
       ∃ bid times,
         get_most_borrowed_book s =
           .result bid ((Option.map Book.title (dlookup s.book_db bid)).getD "Unknown")
             ((Option.map Book.author (dlookup s.book_db bid)).getD "Unknown") times ∧
         dlookup (borrow_counts s.loan_db) bid = some times ∧
         ∀ p ∈ borrow_counts s.loan_db, p.2 ≤ times) := by
  constructor
  · intro h
    unfold get_most_borrowed_book
    rw [h]
    rfl
  · intro h
    cases hc : borrow_counts s.loan_db with
    | nil => exact absurd hc (borrow_counts_ne_nil h)
    | cons c rest =>
        have hmem : ((pyMaxByVal c rest).1, (pyMaxByVal c rest).2) ∈ c :: rest :=
          pyMaxByVal_mem c rest
        have hnd : (dkeys (c :: rest)).Nodup := hc ▸ borrow_counts_keys_nodup s.loan_db
        have hlk : dlookup (c :: rest) (pyMaxByVal c rest).1 = some (pyMaxByVal c rest).2 :=
          dlookup_of_mem_nodup hnd hmem
        refine ⟨(pyMaxByVal c rest).1, (pyMaxByVal c rest).2, ?_, ?_, ?_⟩
        · unfold get_most_borrowed_book
          rw [hc]
          dsimp only
          rw [hlk]
          rfl
        · exact hlk
        · exact pyMaxByVal_ge c rest

theorem most_borrowed_empty_or_max_witness :
    ∃ bid times,
      get_most_borrowed_book initState =
        .result bid ((Option.map Book.title (dlookup initState.book_db bid)).getD "Unknown")
          ((Option.map Book.author (dlookup initState.book_db bid)).getD "Unknown") times ∧
      dlookup (borrow_counts initState.loan_db) bid = some times ∧
      ∀ p ∈ borrow_counts initState.loan_db, p.2 ≤ times :=
  (most_borrowed_empty_or_max initState).2 (by decide)

/-! ## Loan-store effect of each handler, and the C10 invariant -/

theorem borrow_book_loan_db (today book_id user_id : Nat) (s : ServerState) :
    (borrow_book today book_id user_id s).2.loan_db = s.loan_db ∨
    (borrow_book today book_id user_id s).2.loan_db =
      dinsert s.loan_db (nextId s.loan_db)
        { book_id := book_id, user_id := user_id, loan_date := today,
          due_date := today + 14, return_date := none, status := "active" } := by
  unfold borrow_book
  cases h : dlookup s.book_db book_id with
  | none => exact Or.inl rfl
  | some book =>
      dsimp only
      by_cases h2 : book.copies_available ≤ 0
      · rw [if_pos h2]
        exact Or.inl rfl
      · rw [if_neg h2]
        exact Or.inr rfl

theorem return_book_loan_db (today loan_id : Nat) (s : ServerState) :
    (return_book today loan_id s).2.loan_db = s.loan_db ∨
    ∃ loan, dlookup s.loan_db loan_id = some loan ∧
      (return_book today loan_id s).2.loan_db =
        dinsert s.loan_db loan_id
          { loan with return_date := some today, status := "returned" } := by
  unfold return_book
  cases h : dlookup s.loan_db loan_id with
  | none => exact Or.inl rfl
  | some loan =>
      dsimp only
      by_cases h2 : loan.status = "returned"
      · rw [if_pos h2]
        exact Or.inl rfl
      · rw [if_neg h2]
        cases h3 : dlookup s.book_db loan.book_id with
        | none => exact Or.inr ⟨loan, rfl, rfl⟩
        | some book => exact Or.inr ⟨loan, rfl, rfl⟩

theorem update_book_loan_db (book_id : Nat) (book : Book) (s : ServerState) :
    (update_book book_id book s).2.loan_db = s.loan_db := by
  unfold update_book
  cases h : dlookup s.book_db book_id <;> rfl

theorem delete_book_loan_db (book_id : Nat) (s : ServerState) :
    (delete_book book_id s).2.loan_db = s.loan_db := by
  unfold delete_book
  cases h : dlookup s.book_db book_id <;> rfl

theorem create_user_loan_db (user : UserModel) (s : ServerState) :
    (create_user user s).2.loan_db = s.loan_db := by
  unfold create_user
  split <;> rfl

theorem update_user_loan_db (user_id : Nat) (user : UserModel) (s : ServerState) :
    (update_user user_id user s).2.loan_db = s.loan_db := by
  unfold update_user
  cases h : dlookup s.user_db user_id with
  | none => rfl
  | some u => dsimp only; split <;> rfl

theorem delete_user_loan_db (user_id : Nat) (s : ServerState) :
    (delete_user user_id s).2.loan_db = s.loan_db := by
  unfold delete_user
  cases h : dlookup s.user_db user_id <;> rfl

theorem loansWF_dinsert {d : Dict Loan} {k : Nat} {loan : Loan}
    (h : ∀ p ∈ d, LoanOK p.2) (hl : LoanOK loan) :
    ∀ p ∈ dinsert d k loan, LoanOK p.2 := by
  intro p hp
  rcases mem_dinsert hp with h1 | h1
  · exact h p h1
  · rw [h1]
    exact hl

theorem loansWF_applyOp (op : Op) (s : ServerState) (h : LoansWF s) :
    LoansWF (applyOp op s) := by
  cases op with
  | borrow today book_id user_id =>
      intro p hp
      rcases borrow_book_loan_db today book_id user_id s with h1 | h1
      · rw [show (applyOp (.borrow today book_id user_id) s).loan_db =
            (borrow_book today book_id user_id s).2.loan_db from rfl, h1] at hp
        exact h p hp
      · rw [show (applyOp (.borrow today book_id user_id) s).loan_db =
            (borrow_book today book_id user_id s).2.loan_db from rfl, h1] at hp
        exact loansWF_dinsert h
          ⟨Or.inl rfl,
           ⟨fun hh => absurd (show ("active" : String) = "returned" from hh) (by decide),
            fun hh => absurd rfl hh⟩⟩ p hp
  | ret today loan_id =>
      intro p hp
      rcases return_book_loan_db today loan_id s with h1 | h1
      · rw [show (applyOp (.ret today loan_id) s).loan_db =
            (return_book today loan_id s).2.loan_db from rfl, h1] at hp
        exact h p hp
      · obtain ⟨loan, hlk, h2⟩ := h1
        rw [show (applyOp (.ret today loan_id) s).loan_db =
            (return_book today loan_id s).2.loan_db from rfl, h2] at hp
        exact loansWF_dinsert h
          ⟨Or.inr rfl, ⟨fun _ hh => Option.noConfusion hh, fun _ => rfl⟩⟩ p hp
  | addBook book =>
      intro p hp
      exact h p hp
  | updateBook book_id book =>
      intro p hp
      rw [show (applyOp (.updateBook book_id book) s).loan_db =
          (update_book book_id book s).2.loan_db from rfl,
        update_book_loan_db] at hp
      exact h p hp
  | deleteBook book_id =>
      intro p hp
      rw [show (applyOp (.deleteBook book_id) s).loan_db =
          (delete_book book_id s).2.loan_db from rfl,
        delete_book_loan_db] at hp
      exact h p hp
  | createUser user =>
      intro p hp
      rw [show (applyOp (.createUser user) s).loan_db =
          (create_user user s).2.loan_db from rfl,
        create_user_loan_db] at hp
      exact h p hp
  | updateUser user_id user =>
      intro p hp
      rw [show (applyOp (.updateUser user_id user) s).loan_db =
          (update_user user_id user s).2.loan_db from rfl,
        update_user_loan_db] at hp
      exact h p hp
  | deleteUser user_id =>
      intro p hp
      rw [show (applyOp (.deleteUser user_id) s).loan_db =
          (delete_user user_id s).2.loan_db from rfl,
        delete_user_loan_db] at hp
      exact h p hp

theorem loansWF_runOps_aux (ops : List Op) (s : ServerState) (h : LoansWF s) :
    LoansWF (ops.foldl (fun s op => applyOp op s) s) := by
  induction ops generalizing s with
  | nil => exact h
  | cons op rest ih => exact ih _ (loansWF_applyOp op s h)

/-- Claim C10: in every state reachable from the seeded stores by any
sequence of the exposed handlers, every loan record has status `active`
or `returned`, and status is `returned` exactly when `return_date` is
non-null. -/
theorem loan_status_return_date_invariant (ops : List Op) :
    LoansWF (runOps ops) :=
  loansWF_runOps_aux ops initState (by unfold LoansWF; decide)

end LibraryMS
